import Mathlib

/-!
Verification of the ProstheMind touch-to-sense pipeline
(src/final/touch_to_sense.py) against its natural-language
specification.

The Python source is shallowly embedded below: machine floats are
modelled by exact rationals, Python `int(...)` truncation by `pyInt`,
`deque(maxlen=n)` by `pushBounded n`, and the per-cycle body of
`IntegratedProstheMind.run` by the pure step function `stepCycle`
over an explicit state record.  Where a claimed observable depends on
IEEE rounding — the number of no-detection decay steps from confidence
1.0 to the 0.1 floor — binary64 round-to-nearest-even arithmetic is
modelled exactly (`floatRound`, `noDetectionStepF`).  The detector, camera and audio
backend sit outside the embedding boundary: a cycle receives either
no detection or a detection carrying the (externally extracted)
texture features and object label.
-/

set_option maxRecDepth 10000

namespace ProstheMind

/-- The eight material categories of `MATERIAL_DATABASE`. -/
inductive Material where
  | fabric | metal | glass | wood | plastic | paper | ceramic | stone
deriving DecidableEq, Repr

open Material

/-- `MATERIAL_DATABASE[m]['grip_strength']`. -/
def gripStrength : Material → ℕ
  | fabric => 30
  | metal => 70
  | glass => 85
  | wood => 50
  | plastic => 60
  | paper => 25
  | ceramic => 75
  | stone => 80

/-- `MATERIAL_DATABASE[m]['pain_factor']`. -/
def painFactorOf : Material → ℚ
  | fabric => 1/5
  | metal => 7/10
  | glass => 9/10
  | wood => 2/5
  | plastic => 1/2
  | paper => 1/10
  | ceramic => 4/5
  | stone => 17/20

/-- The `OBJECT_MATERIAL_MAP` dict literal, as the sequence of key/value
bindings in source order.  Note the duplicate key: the literal binds
both `'vase': 'glass'` and, later, `'vase': 'ceramic'`. -/
def OBJECT_MATERIAL_MAP : List (String × Material) :=
  [("backpack", fabric), ("handbag", fabric), ("tie", fabric),
   ("umbrella", fabric), ("suitcase", fabric), ("teddy bear", fabric),
   ("knife", metal), ("fork", metal), ("spoon", metal),
   ("scissors", metal), ("refrigerator", metal), ("oven", metal),
   ("sink", metal), ("toaster", metal),
   ("wine glass", glass), ("cup", glass), ("bottle", glass),
   ("vase", glass), ("mirror", glass),
   ("chair", wood), ("dining table", wood), ("bench", wood),
   ("cell phone", plastic), ("remote", plastic), ("keyboard", plastic),
   ("mouse", plastic), ("laptop", plastic), ("toothbrush", plastic),
   ("bowl", plastic),
   ("book", paper), ("newspaper", paper),
   ("potted plant", ceramic), ("vase", ceramic)]

/-- Lookup in a Python dict literal: a later binding of the same key
overwrites an earlier one, so the effective value is the last binding. -/
def dictLookup (l : List (String × Material)) (k : String) : Option Material :=
  (l.reverse.find? (fun p => p.1 == k)).map Prod.snd

/-- The feature vector returned by `analyze_texture` (computed by OpenCV
outside the embedding boundary; `brightness_std` is carried but unused
by the classifier scores, exactly as in the source). -/
structure Features where
  edge_density : ℚ
  texture_energy : ℚ
  brightness_std : ℚ
  saturation_mean : ℚ
  highlight_ratio : ℚ
deriving DecidableEq, Repr

/-- The `scores` dict of `classify_material`, in source (insertion) order. -/
def materialScores (f : Features) : List (Material × ℚ) :=
  [(fabric, f.edge_density * 3 + (1 - f.highlight_ratio) * 2),
   (metal, f.highlight_ratio * 5 + (1 - f.edge_density) * 2),
   (glass, f.highlight_ratio * 6 + (1 - f.edge_density) * 3),
   (wood, f.texture_energy / 300 + f.edge_density * 2),
   (plastic, f.saturation_mean / 150 + (1 - f.texture_energy / 300) * (3/2)),
   (paper, f.edge_density * 4 + (1 - f.highlight_ratio) * 2),
   (ceramic, (1 - f.edge_density) * 2 + f.highlight_ratio * 2),
   (stone, f.texture_energy / 250 + f.highlight_ratio * 3 + (1 - f.edge_density) * (5/2))]

/-- Python `max(scores, key=scores.get)`: the first key (in insertion
order) attaining the maximal score; replacement only on a strictly
greater score. -/
def argmaxFirst : List (Material × ℚ) → Option (Material × ℚ)
  | [] => none
  | p :: rest => some (rest.foldl (fun best q => if best.2 < q.2 then q else best) p)

/-- `IntegratedProstheMind.classify_material(features, detected_object)`.
Label-prior mode short-circuits feature scoring; feature-scoring mode
normalises the winning score by the total and clamps to 1. -/
def classify_material (features : Option Features) (label : Option String) :
    Option Material × ℚ :=
  match features with
  | none => (none, 0)
  | some f =>
    match label.bind (dictLookup OBJECT_MATERIAL_MAP) with
    | some m => (some m, 17/20)
    | none =>
      let scores := materialScores f
      match argmaxFirst scores with
      | none => (none, 0)
      | some best =>
        let total := (scores.map Prod.snd).sum
        let conf := if 0 < total then best.2 / total else 0
        (some best.1, min conf 1)

/-- Append on a `deque(maxlen=n)`: the oldest (leftmost) element is
evicted once the capacity is reached. -/
def pushBounded (n : ℕ) (h : List α) (x : α) : List α :=
  if h.length < n then h ++ [x] else h.tail ++ [x]

/-- Integer mean as computed by `int(np.mean(h))` on a non-empty list of
non-negative integers (truncation of a non-negative mean is the floor,
i.e. Nat division). -/
def natMean (h : List ℕ) : ℕ := h.sum / h.length

/-- Python `int(q)`: truncation toward zero. -/
def pyInt (q : ℚ) : ℤ := if 0 ≤ q then ⌊q⌋ else ⌈q⌉

/-- Python `max(set(h), key=h.count)`: some element of `h` with maximal
multiplicity.  (The iteration order of a Python set is unspecified, so
any tie-break among maximal-count elements is a faithful refinement;
this one keeps the earliest maximal element of `h`.) -/
def materialMode (h : List Material) : Material :=
  h.foldl (fun best x => if h.count best < h.count x then x else best)
    (h.headD Material.fabric)

/-- Lines 1345-1347 of `run`: append the raw accepted material to the
bounded history (capacity 10) and, once the history holds at least 5
entries, replace the emitted material by the mode of the history. -/
def smoothMaterial (hist : List Material) (m : Material) :
    List Material × Material :=
  let h := pushBounded 10 hist m
  (h, if 5 ≤ h.length then materialMode h else m)

/-- Mutable state of `PainFeedbackSystem`. -/
structure PainState where
  painLevel : ℕ
  painHistory : List ℕ
  strain : ℚ
  relief : Bool
deriving DecidableEq, Repr

/-- `PainFeedbackSystem.__init__` (the alert-cooldown clock is outside
the embedding). -/
def initPainState : PainState :=
  { painLevel := 0, painHistory := [], strain := 0, relief := false }

/-- `PainFeedbackSystem.calculate_pain_from_grip`: returns the new raw
pain sample together with the updated strain accumulation. -/
def calculate_pain_from_grip (ps : PainState) (grip : ℕ) (mat : Option Material) :
    ℕ × ℚ :=
  let pf : ℚ := match mat with
    | some m => painFactorOf m
    | none => 1/2
  let basePain : ℚ := max 0 (((grip : ℚ) - 40) * (3/2))
  let materialPain := basePain * pf
  let strain := min (ps.strain + ((grip : ℚ) / 100) * (1/2)) 50
  let total := materialPain + strain
  let total := if ps.relief then total * (3/5) else total
  ((min 100 (max 0 (pyInt total))).toNat, strain)

/-- The relief-mode transition at the end of
`PainFeedbackSystem.update_pain_level`: enter above 75, exit below 40,
otherwise keep the previous mode. -/
def reliefNext (level : ℕ) (prev : Bool) : Bool :=
  if 75 < level then true else if level < 40 then false else prev

/-- `PainFeedbackSystem.update_pain_level`. -/
def update_pain_level (ps : PainState) (grip : ℕ) (mat : Option Material)
    (isGripping : Bool) : PainState :=
  let s := if isGripping then calculate_pain_from_grip ps grip mat
           else (ps.painLevel - 2, max 0 (ps.strain - 1/2))
  let hist := pushBounded 20 ps.painHistory s.1
  let level := if hist.isEmpty then 0 else natMean hist
  { painLevel := level, painHistory := hist, strain := s.2,
    relief := reliefNext level ps.relief }

/-- The long-lived mutable session state of `IntegratedProstheMind`
(fields that never feed back into the claimed behaviour — detection box,
distance estimate, insight text and animation counters — are outside the
embedding). -/
structure SysState where
  currentMaterial : Option Material
  currentObject : Option String
  currentGrip : ℕ
  targetGrip : ℕ
  confidence : ℚ
  gripHistory : List ℕ
  materialHistory : List Material
  wasInContact : Bool
  contactFrameCount : ℕ
  pain : PainState
deriving DecidableEq, Repr

/-- `IntegratedProstheMind.__init__`. -/
def initState : SysState :=
  { currentMaterial := none, currentObject := none, currentGrip := 0,
    targetGrip := 0, confidence := 0, gripHistory := [],
    materialHistory := [], wasInContact := false, contactFrameCount := 0,
    pain := initPainState }

/-- Input of one detection cycle (an iteration of `run` with
`frame_count % 3 == 0`): either the detector returned nothing, or it
returned a region with extracted texture features and an object label. -/
inductive CycleInput where
  | noDetection : CycleInput
  | detection (features : Option Features) (label : Option String) : CycleInput
deriving DecidableEq, Repr

/-- The accepted-classification branch of `run` (confidence above 0.4):
material smoothing, grip targeting and smoothing, contact bookkeeping and
the gripping pain update. -/
def acceptStep (s : SysState) (label : Option String) (m : Material) (conf : ℚ) :
    SysState × Option Bool :=
  let sm := smoothMaterial s.materialHistory m
  let m := sm.2
  let isNewContact := !s.wasInContact
  let tg := gripStrength m
  let gh := pushBounded 15 s.gripHistory tg
  let grip := natMean gh
  let cfc := if isNewContact || s.contactFrameCount == 0 then 30
             else s.contactFrameCount
  let cfc := if 0 < cfc then cfc - 1 else cfc
  ({ currentMaterial := some m, currentObject := label, currentGrip := grip,
     targetGrip := tg, confidence := conf, gripHistory := gh,
     materialHistory := sm.1, wasInContact := true, contactFrameCount := cfc,
     pain := update_pain_level s.pain grip (some m) true },
   some true)

/-- The weak-detection branch of `run` (a detection whose classification
was rejected): confidence decays by 0.03 and, below the 0.2 floor, the
contact state is cleared and the pain model is told "not gripping". -/
def weakStep (s : SysState) (label : Option String) : SysState × Option Bool :=
  let conf := max 0 (s.confidence - 3/100)
  if conf < 1/5 then
    ({ s with currentObject := label, currentMaterial := none,
              confidence := conf, wasInContact := false,
              pain := update_pain_level s.pain 0 none false },
     some false)
  else
    ({ s with currentObject := label, confidence := conf }, none)

/-- The no-detection branch of `run`: confidence decays by 0.05 and,
below the 0.1 floor, the session is cleared, a zero is pushed into the
grip history and the pain model is told "not gripping".  The decay is
taken in exact rationals here; `noDetectionStepF` below models the same
branch under the binary64 arithmetic of the source, on which the decay
step count at the floor boundary depends. -/
def noDetectionStep (s : SysState) : SysState × Option Bool :=
  let conf := max 0 (s.confidence - 1/20)
  if conf < 1/10 then
    let gh := pushBounded 15 s.gripHistory 0
    ({ s with currentMaterial := none, currentObject := none,
              confidence := conf, gripHistory := gh,
              currentGrip := natMean gh, wasInContact := false,
              pain := update_pain_level s.pain 0 none false },
     some false)
  else
    ({ s with confidence := conf }, none)

/-- One detection cycle of `IntegratedProstheMind.run`.  The second
component records whether `update_pain_level` was invoked this cycle
and, if so, with which `is_gripping` flag. -/
def stepCycle (s : SysState) (inp : CycleInput) : SysState × Option Bool :=
  match inp with
  | .noDetection => noDetectionStep s
  | .detection features label =>
    let c := classify_material features label
    match c.1 with
    | some m => if 2/5 < c.2 then acceptStep s label m c.2 else weakStep s label
    | none => weakStep s label

/-- The R-key reset handler of `run` (lines 1441-1452): it clears the
rolling grip/material histories, the current material/object/grip, the
confidence, the reported pain level and the strain accumulation — and
touches nothing else. -/
def resetState (s : SysState) : SysState :=
  { s with currentMaterial := none, currentObject := none,
           currentGrip := 0, confidence := 0, gripHistory := [],
           materialHistory := [],
           pain := { s.pain with painLevel := 0, strain := 0 } }

/-- States reachable from startup by detection cycles and resets. -/
inductive Reachable : SysState → Prop where
  | init : Reachable initState
  | step {s : SysState} (inp : CycleInput) :
      Reachable s → Reachable (stepCycle s inp).1
  | reset {s : SysState} : Reachable s → Reachable (resetState s)

/-- `HapticFeedbackSimulator.pain_alert`: the tier of beep actually
played for a given reported pain level (none below 51). -/
inductive AlertTier where
  | low | high
deriving DecidableEq, Repr

/-- Tier selection inside `pain_alert` (lines 532-540). -/
def painAlertTier (painLevel : ℕ) : Option AlertTier :=
  if 70 < painLevel then some .high
  else if 50 < painLevel then some .low
  else none

/-- The dispatch gate in `run` (lines 1395-1401): `pain_alert` is invoked
only when the reported level exceeds 60 and the 3-second per-class
cooldown has elapsed (the wall clock is abstracted into the Boolean
`cooldownElapsed`). -/
def dispatchPainAlert (painLevel : ℕ) (cooldownElapsed : Bool) :
    Option AlertTier :=
  if 60 < painLevel && cooldownElapsed then painAlertTier painLevel else none

/-- The strain-accumulation scenario of the spec: the pain model fed
`is_gripping=True`, `grip=90`, `material=metal` from the initial pain
state, iterated for the given number of cycles. -/
def simStrain : ℕ → PainState
  | 0 => initPainState
  | n + 1 => update_pain_level (simStrain n) 90 (some metal) true

end ProstheMind

namespace ProstheMind

/-! ## Helper lemmas -/

theorem mem_pushBounded {α : Type} {n : ℕ} {h : List α} {x y : α}
    (hx : x ∈ pushBounded n h y) : x ∈ h ∨ x = y := by
  unfold pushBounded at hx
  split at hx <;> simp at hx
  · exact hx
  · rcases hx with hx | hx
    · exact Or.inl (List.mem_of_mem_tail hx)
    · exact Or.inr hx

theorem pushBounded_ne_nil {α : Type} (n : ℕ) (h : List α) (y : α) :
    pushBounded n h y ≠ [] := by
  unfold pushBounded
  split <;> simp

theorem natMean_le {h : List ℕ} {B : ℕ} (hb : ∀ x ∈ h, x ≤ B) :
    natMean h ≤ B := by
  unfold natMean
  rcases Nat.eq_zero_or_pos h.length with hl | hl
  · simp [hl]
  · have h1 : h.sum ≤ B * h.length := by
      have := List.sum_le_card_nsmul h B hb
      simpa [smul_eq_mul, Nat.mul_comm] using this
    calc h.sum / h.length ≤ B * h.length / h.length := Nat.div_le_div_right h1
    _ = B := Nat.mul_div_cancel B hl

theorem gripStrength_le_100 (m : Material) : gripStrength m ≤ 100 := by
  cases m <;> decide

theorem count_le_foldl_count (h : List Material) :
    ∀ (l : List Material) (b : Material),
      h.count b ≤ h.count (l.foldl
        (fun best x => if h.count best < h.count x then x else best) b) ∧
      ∀ x ∈ l, h.count x ≤ h.count (l.foldl
        (fun best x => if h.count best < h.count x then x else best) b) := by
  intro l
  induction l with
  | nil => intro b; exact ⟨le_refl _, by simp⟩
  | cons a t ih =>
    intro b
    simp only [List.foldl_cons]
    have hb : h.count b ≤ h.count (if h.count b < h.count a then a else b) := by
      split <;> omega
    have ha : h.count a ≤ h.count (if h.count b < h.count a then a else b) := by
      split <;> omega
    obtain ⟨ih1, ih2⟩ := ih (if h.count b < h.count a then a else b)
    refine ⟨le_trans hb ih1, ?_⟩
    intro x hx
    rcases List.mem_cons.mp hx with hx | hx
    · subst hx; exact le_trans ha ih1
    · exact ih2 x hx

theorem foldl_mem_cons (h : List Material) :
    ∀ (l : List Material) (b : Material),
      l.foldl (fun best x => if h.count best < h.count x then x else best) b ∈ b :: l := by
  intro l
  induction l with
  | nil => intro b; simp
  | cons a t ih =>
    intro b
    simp only [List.foldl_cons]
    have := ih (if h.count b < h.count a then a else b)
    rcases List.mem_cons.mp this with hm | hm
    · rw [hm]
      split <;> simp
    · exact List.mem_cons_of_mem _ (List.mem_cons_of_mem _ hm)

theorem materialMode_spec (h : List Material) (hne : h ≠ []) :
    materialMode h ∈ h ∧ ∀ x ∈ h, h.count x ≤ h.count (materialMode h) := by
  obtain ⟨a, t, rfl⟩ := List.exists_cons_of_ne_nil hne
  unfold materialMode
  simp only [List.headD_cons]
  constructor
  · have := foldl_mem_cons (a :: t) (a :: t) a
    rcases List.mem_cons.mp this with hm | hm
    · rw [hm]; exact List.mem_cons_self a t
    · exact hm
  · exact (count_le_foldl_count (a :: t) (a :: t) a).2

end ProstheMind

namespace ProstheMind

/-- Bounds maintained by the pain model: every raw sample in the pain
history, and the reported level, stay within the 0..100 range (the lower
bound is carried by the `ℕ` encoding). -/
def PainInv (ps : PainState) : Prop :=
  (∀ p ∈ ps.painHistory, p ≤ 100) ∧ ps.painLevel ≤ 100

theorem calculate_pain_fst_le (ps : PainState) (grip : ℕ) (mat : Option Material) :
    (calculate_pain_from_grip ps grip mat).1 ≤ 100 := by
  unfold calculate_pain_from_grip
  simp only []
  omega

theorem update_painHistory (ps : PainState) (grip : ℕ) (mat : Option Material)
    (b : Bool) :
    (update_pain_level ps grip mat b).painHistory =
      pushBounded 20 ps.painHistory
        (if b then calculate_pain_from_grip ps grip mat
         else (ps.painLevel - 2, max 0 (ps.strain - 1/2))).1 := rfl

theorem update_painLevel_eq (ps : PainState) (grip : ℕ) (mat : Option Material)
    (b : Bool) :
    (update_pain_level ps grip mat b).painLevel =
      if (update_pain_level ps grip mat b).painHistory.isEmpty then 0
      else natMean (update_pain_level ps grip mat b).painHistory := rfl

theorem painInv_update (ps : PainState) (grip : ℕ) (mat : Option Material)
    (b : Bool) (hp : PainInv ps) : PainInv (update_pain_level ps grip mat b) := by
  obtain ⟨hh, hl⟩ := hp
  have hsle : (if b then calculate_pain_from_grip ps grip mat
               else (ps.painLevel - 2, max 0 (ps.strain - 1/2))).1 ≤ 100 := by
    split
    · exact calculate_pain_fst_le ps grip mat
    · show ps.painLevel - 2 ≤ 100
      omega
  have hhist : ∀ p ∈ (update_pain_level ps grip mat b).painHistory, p ≤ 100 := by
    rw [update_painHistory]
    intro p hpm
    rcases mem_pushBounded hpm with hm | hm
    · exact hh p hm
    · omega
  refine ⟨hhist, ?_⟩
  rw [update_painLevel_eq]
  split
  · omega
  · exact natMean_le hhist

/-- Bounds maintained by the whole session state. -/
def SysInv (s : SysState) : Prop :=
  (∀ g ∈ s.gripHistory, g ≤ 100) ∧ s.currentGrip ≤ 100 ∧ PainInv s.pain

theorem sysInv_init : SysInv initState := by
  refine ⟨?_, ?_, ?_, ?_⟩ <;> simp [initState, initPainState]

theorem sysInv_accept (s : SysState) (label : Option String) (m : Material)
    (conf : ℚ) (h : SysInv s) : SysInv (acceptStep s label m conf).1 := by
  obtain ⟨hg, _, hp⟩ := h
  unfold acceptStep
  simp only []
  have hgh : ∀ g ∈ pushBounded 15 s.gripHistory
      (gripStrength (smoothMaterial s.materialHistory m).2), g ≤ 100 := by
    intro g hgm
    rcases mem_pushBounded hgm with hm | hm
    · exact hg g hm
    · rw [hm]; exact gripStrength_le_100 _
  exact ⟨hgh, natMean_le hgh, painInv_update _ _ _ _ hp⟩

theorem sysInv_weak (s : SysState) (label : Option String)
    (h : SysInv s) : SysInv (weakStep s label).1 := by
  obtain ⟨hg, hcg, hp⟩ := h
  unfold weakStep
  simp only []
  split
  · exact ⟨hg, hcg, painInv_update _ _ _ _ hp⟩
  · exact ⟨hg, hcg, hp⟩

theorem sysInv_noDetection (s : SysState) (h : SysInv s) :
    SysInv (noDetectionStep s).1 := by
  obtain ⟨hg, hcg, hp⟩ := h
  unfold noDetectionStep
  simp only []
  split
  · have hgh : ∀ g ∈ pushBounded 15 s.gripHistory 0, g ≤ 100 := by
      intro g hgm
      rcases mem_pushBounded hgm with hm | hm
      · exact hg g hm
      · omega
    exact ⟨hgh, natMean_le hgh, painInv_update _ _ _ _ hp⟩
  · exact ⟨hg, hcg, hp⟩

theorem sysInv_step (s : SysState) (inp : CycleInput) (h : SysInv s) :
    SysInv (stepCycle s inp).1 := by
  cases inp with
  | noDetection => exact sysInv_noDetection s h
  | detection features label =>
    have hstep : stepCycle s (.detection features label) =
        match (classify_material features label).1 with
        | some m => if 2/5 < (classify_material features label).2
                    then acceptStep s label m (classify_material features label).2
                    else weakStep s label
        | none => weakStep s label := rfl
    rw [hstep]
    cases (classify_material features label).1 with
    | none => exact sysInv_weak s label h
    | some m =>
      simp only []
      split
      · exact sysInv_accept s label m _ h
      · exact sysInv_weak s label h

theorem sysInv_reset (s : SysState) (h : SysInv s) : SysInv (resetState s) := by
  obtain ⟨_, _, hp, _⟩ := h
  refine ⟨by simp [resetState], by simp [resetState], ?_, by simp [resetState]⟩
  simpa [resetState] using hp

theorem sysInv_reachable (s : SysState) (h : Reachable s) : SysInv s := by
  induction h with
  | init => exact sysInv_init
  | step inp _ ih => exact sysInv_step _ inp ih
  | reset _ ih => exact sysInv_reset _ ih

end ProstheMind

namespace ProstheMind

/-- C1.  In every state reachable from startup by detection cycles and
resets, the applied grip value and the reported pain level are integers
in the range 0..100 (the lower bound is the `ℕ` encoding of both
fields): raw pain samples entering the bounded pain history are clamped
to 0..100, the reported level is the truncated mean over that history,
and the applied grip is the truncated mean of a history containing only
material base grip strengths and 0. -/
theorem grip_pain_clamped (s : SysState) (h : Reachable s) :
    s.currentGrip ≤ 100 ∧ s.pain.painLevel ≤ 100 ∧
    (∀ g ∈ s.gripHistory, g ≤ 100) ∧ (∀ p ∈ s.pain.painHistory, p ≤ 100) := by
  obtain ⟨hg, hcg, hph, hpl⟩ := sysInv_reachable s h
  exact ⟨hcg, hpl, hg, hph⟩

/-- Witness for C1 at the startup state. -/
theorem grip_pain_clamped_witness :
    initState.currentGrip ≤ 100 ∧ initState.pain.painLevel ≤ 100 ∧
    (∀ g ∈ initState.gripHistory, g ≤ 100) ∧
    (∀ p ∈ initState.pain.painHistory, p ≤ 100) :=
  grip_pain_clamped initState Reachable.init

/-- C2.  Relief-mode hysteresis of `update_pain_level`: the mode becomes
active whenever the reported level exceeds 75, becomes inactive whenever
it drops below 40, and over any sequence of reported levels inside the
band 40..75 (monotonic or oscillating) the prior mode persists
unchanged; the relief flag produced by a full pain update is exactly
this transition applied to the newly reported level. -/
theorem relief_hysteresis :
    (∀ (lvl : ℕ) (prev : Bool), 75 < lvl → reliefNext lvl prev = true) ∧
    (∀ (lvl : ℕ) (prev : Bool), lvl < 40 → reliefNext lvl prev = false) ∧
    (∀ (seq : List ℕ) (prev : Bool), (∀ l ∈ seq, 40 ≤ l ∧ l ≤ 75) →
        seq.foldl (fun b l => reliefNext l b) prev = prev) ∧
    (∀ (ps : PainState) (grip : ℕ) (mat : Option Material) (ig : Bool),
        (update_pain_level ps grip mat ig).relief =
          reliefNext (update_pain_level ps grip mat ig).painLevel ps.relief) := by
  have hband : ∀ (l : ℕ) (b : Bool), 40 ≤ l → l ≤ 75 → reliefNext l b = b := by
    intro l b h1 h2
    unfold reliefNext
    rw [if_neg (by omega), if_neg (by omega)]
  refine ⟨?_, ?_, ?_, ?_⟩
  · intro lvl prev h
    unfold reliefNext
    rw [if_pos h]
  · intro lvl prev h
    unfold reliefNext
    rw [if_neg (by omega), if_pos h]
  · intro seq
    induction seq with
    | nil => intro prev _; rfl
    | cons a t ih =>
      intro prev hseq
      obtain ⟨ha1, ha2⟩ := hseq a (List.mem_cons_self a t)
      simp only [List.foldl_cons]
      rw [hband a prev ha1 ha2]
      exact ih prev (fun l hl => hseq l (List.mem_cons_of_mem a hl))
  · intro ps grip mat ig
    rfl

/-- Witness for C2: enter above 75, exit below 40, persist across a
band-interior sequence. -/
theorem relief_hysteresis_witness :
    reliefNext 80 false = true ∧ reliefNext 20 true = false ∧
    [40, 75, 60, 41].foldl (fun b l => reliefNext l b) true = true :=
  ⟨relief_hysteresis.1 80 false (by decide),
   relief_hysteresis.2.1 20 true (by decide),
   relief_hysteresis.2.2.1 [40, 75, 60, 41] true (by decide)⟩

/-- C3.  For any feature vector whatsoever, a region labeled
"wine glass" is classified by the label-prior mode: material glass with
confidence exactly 0.85. -/
theorem wine_glass_label_prior (f : Features) :
    classify_material (some f) (some "wine glass") =
      (some Material.glass, 17/20) := by
  have h : dictLookup OBJECT_MATERIAL_MAP "wine glass" = some Material.glass := by
    rfl
  simp [classify_material, h]

/-- C10.  The duplicate key in the `OBJECT_MATERIAL_MAP` literal makes
the later ceramic binding for "vase" override the earlier glass one, so
for any feature vector a region labeled "vase" is classified as ceramic
(not glass) with confidence 0.85. -/
theorem vase_maps_to_ceramic (f : Features) :
    dictLookup OBJECT_MATERIAL_MAP "vase" = some Material.ceramic ∧
    classify_material (some f) (some "vase") = (some Material.ceramic, 17/20) ∧
    Material.ceramic ≠ Material.glass := by
  have h : dictLookup OBJECT_MATERIAL_MAP "vase" = some Material.ceramic := by
    rfl
  exact ⟨h, by simp [classify_material, h], by decide⟩

end ProstheMind

namespace ProstheMind

attribute [local semireducible] Rat.add Rat.mul Rat.sub Rat.inv Rat.ofScientific

/-- Round a positive rational in the binary64 normal range to the
nearest IEEE double, ties to even: the value is scaled by the smallest
power of two that brings it into [2^52, 2^53), the scaled significand is
rounded to an integer (ties to the even neighbour), and scaled back.
Inputs at or below 0 map to 0 (the confidence trajectory never produces
them before the floor is crossed). -/
def floatRound (q : ℚ) : ℚ :=
  if q ≤ 0 then 0
  else
    match (List.range 200).find? (fun s => decide ((2 ^ 52 : ℚ) ≤ q * 2 ^ s)) with
    | none => 0
    | some s =>
      let m := q * 2 ^ s
      let n := ⌊m⌋
      let frac := m - (n : ℚ)
      let r : ℤ :=
        if frac < 1/2 then n
        else if (1 : ℚ)/2 < frac then n + 1
        else if n % 2 = 0 then n else n + 1
      (r : ℚ) / 2 ^ s

/-- The binary64 value of the program literal 0.05
(3602879701896397 / 2^56, slightly above 1/20). -/
def c05 : ℚ := floatRound (1/20)

/-- The binary64 value of the program literal 0.1
(3602879701896397 / 2^55, slightly above 1/10). -/
def c01 : ℚ := floatRound (1/10)

/-- The no-detection confidence decay
`self.confidence = max(0, self.confidence - 0.05)` under exact binary64
semantics: IEEE subtraction is the correctly rounded exact difference. -/
def fdecay (c : ℚ) : ℚ := max 0 (floatRound (c - c05))

/-- The no-detection branch of `run` with its float arithmetic modelled
exactly: identical to `noDetectionStep` except that the confidence decay
and the floor comparison follow the program's binary64 doubles, on which
the step count of C4 depends. -/
def noDetectionStepF (s : SysState) : SysState × Option Bool :=
  let conf := fdecay s.confidence
  if conf < c01 then
    let gh := pushBounded 15 s.gripHistory 0
    ({ s with currentMaterial := none, currentObject := none,
              confidence := conf, gripHistory := gh,
              currentGrip := natMean gh, wasInContact := false,
              pain := update_pain_level s.pain 0 none false },
     some false)
  else
    ({ s with confidence := conf }, none)

/-- Iterated float-exact no-detection cycles. -/
def ndStateF (k : ℕ) (s : SysState) : SysState :=
  (fun t => (noDetectionStepF t).1)^[k] s

theorem noDetF_conf (s : SysState) :
    (noDetectionStepF s).1.confidence = fdecay s.confidence := by
  unfold noDetectionStepF
  simp only []
  split <;> rfl

theorem noDetF_out (s : SysState) :
    (noDetectionStepF s).2 =
      if fdecay s.confidence < c01 then some false else none := by
  unfold noDetectionStepF
  simp only []
  split
  · rfl
  · rfl

theorem noDetF_below_floor (s : SysState) (h : fdecay s.confidence < c01) :
    (noDetectionStepF s).1.currentMaterial = none ∧
    (noDetectionStepF s).1.pain = update_pain_level s.pain 0 none false := by
  unfold noDetectionStepF
  simp only []
  rw [if_pos h]
  exact ⟨rfl, rfl⟩

theorem ndStateF_conf (s : SysState) (k : ℕ) :
    (ndStateF k s).confidence = fdecay^[k] s.confidence := by
  induction k with
  | zero => rfl
  | succ n ih =>
    have h1 : ndStateF (n + 1) s = (noDetectionStepF (ndStateF n s)).1 := by
      simp [ndStateF, Function.iterate_succ_apply']
    rw [h1, noDetF_conf, ih, Function.iterate_succ_apply']

/-- C4.  From any state with confidence 1.0, the no-detection
decay (binary64 `max(0, c - 0.05)` against the 0.1 floor) first crosses
the floor after exactly N = 18 cycles — the 18th subtraction yields
0.09999999999999969 < 0.1 in IEEE doubles: the first 17 no-detection
cycles leave the pain model untouched, and on the 18th the contact state
resets — the current material becomes none and the pain model is told
is-gripping = false. -/
theorem decay_to_reset (s : SysState) (hs : s.confidence = 1) :
    (∀ k, k < 17 →
        (noDetectionStepF (ndStateF k s)).2 = none) ∧
    (noDetectionStepF (ndStateF 17 s)).2 = some false ∧
    (ndStateF 18 s).currentMaterial = none ∧
    (ndStateF 18 s).pain = update_pain_level (ndStateF 17 s).pain 0 none false := by
  have habove : ∀ k, k < 17 → ¬ (fdecay^[k + 1] (1 : ℚ) < c01) := by decide
  have hcross : fdecay^[18] (1 : ℚ) < c01 := by decide
  have hfloor : fdecay (ndStateF 17 s).confidence < c01 := by
    rw [ndStateF_conf, hs, ← Function.iterate_succ_apply' fdecay 17 (1 : ℚ)]
    exact hcross
  have h18 : ndStateF 18 s = (noDetectionStepF (ndStateF 17 s)).1 := by
    simp [ndStateF, Function.iterate_succ_apply']
  refine ⟨?_, ?_, ?_, ?_⟩
  · intro k hk
    rw [noDetF_out, ndStateF_conf, hs,
        ← Function.iterate_succ_apply' fdecay k (1 : ℚ)]
    exact if_neg (habove k hk)
  · rw [noDetF_out]
    exact if_pos hfloor
  · rw [h18]
    exact (noDetF_below_floor (ndStateF 17 s) hfloor).1
  · rw [h18]
    exact (noDetF_below_floor (ndStateF 17 s) hfloor).2

/-- Witness for C4 at the startup state with confidence forced to 1. -/
theorem decay_to_reset_witness :
    ({ initState with confidence := 1 } : SysState).confidence = 1 ∧
    (ndStateF 18 { initState with confidence := 1 }).currentMaterial = none ∧
    (noDetectionStepF (ndStateF 17 { initState with confidence := 1 })).2 =
      some false :=
  ⟨rfl,
   (decay_to_reset { initState with confidence := 1 } rfl).2.2.1,
   (decay_to_reset { initState with confidence := 1 } rfl).2.1⟩

end ProstheMind

namespace ProstheMind

/-- C5 counterexample.  With four fabric entries in the history and a
raw metal classification, the appended history has 5 entries — half the
capacity-10 window, so the window is not full — yet the emitted material
is already the mode (fabric), not the raw value (metal): mode smoothing
starts at 5 entries, not when the window fills. -/
theorem material_mode_before_window_full :
    (smoothMaterial
        [Material.fabric, Material.fabric, Material.fabric, Material.fabric]
        Material.metal).1.length = 5 ∧
    (smoothMaterial
        [Material.fabric, Material.fabric, Material.fabric, Material.fabric]
        Material.metal).1.length < 10 ∧
    (smoothMaterial
        [Material.fabric, Material.fabric, Material.fabric, Material.fabric]
        Material.metal).2 = Material.fabric ∧
    Material.fabric ≠ Material.metal := by decide

/-- C5 amended.  Material smoothing passes the raw classified material
through unchanged while the bounded history holds fewer than 5 entries,
and from 5 entries on (half the capacity-10 window, before it fills)
emits a mode of the history: an element whose multiplicity is maximal. -/
theorem material_smoothing_spec (hist : List Material) (m : Material) :
    ((smoothMaterial hist m).1.length < 5 → (smoothMaterial hist m).2 = m) ∧
    (5 ≤ (smoothMaterial hist m).1.length →
      (smoothMaterial hist m).2 ∈ (smoothMaterial hist m).1 ∧
      ∀ x ∈ (smoothMaterial hist m).1,
        (smoothMaterial hist m).1.count x ≤
          (smoothMaterial hist m).1.count (smoothMaterial hist m).2) := by
  have h1 : (smoothMaterial hist m).1 = pushBounded 10 hist m := rfl
  have h2 : (smoothMaterial hist m).2 =
      if 5 ≤ (pushBounded 10 hist m).length then materialMode (pushBounded 10 hist m)
      else m := rfl
  constructor
  · intro hlt
    rw [h1] at hlt
    rw [h2, if_neg (by omega)]
  · intro hge
    rw [h1] at hge
    rw [h1, h2, if_pos hge]
    exact materialMode_spec _ (pushBounded_ne_nil 10 hist m)

/-- Witness for C5 amended: pass-through on a short history, mode
membership on a 5-entry history. -/
theorem material_smoothing_spec_witness :
    (smoothMaterial [] Material.metal).2 = Material.metal ∧
    (smoothMaterial
        [Material.fabric, Material.fabric, Material.fabric, Material.fabric]
        Material.glass).2 ∈
      (smoothMaterial
        [Material.fabric, Material.fabric, Material.fabric, Material.fabric]
        Material.glass).1 :=
  ⟨(material_smoothing_spec [] Material.metal).1 (by decide),
   ((material_smoothing_spec
      [Material.fabric, Material.fabric, Material.fabric, Material.fabric]
      Material.glass).2 (by decide)).1⟩

/-- C9 counterexample.  A reported level of 55 has crossed 50 and stays
at or below 70; the alert routine itself would classify it as the lower
tier, but the dispatch gate in the run loop requires level > 60, so even
with the inter-alert interval elapsed no pain alert is dispatched. -/
theorem low_tier_alert_not_dispatched :
    painAlertTier 55 = some AlertTier.low ∧
    dispatchPainAlert 55 true = none := by decide

/-- C9 amended.  A pain alert is dispatched exactly when the reported
level exceeds 60 and the 3-second cooldown has elapsed; a dispatched
alert is the higher tier (with the secondary delayed pulse) when the
level exceeds 70 and the lower tier when it lies in 61..70 — levels in
51..60 never dispatch despite exceeding the lower alert threshold. -/
theorem pain_alert_dispatch_spec (lvl : ℕ) (elapsed : Bool) :
    (dispatchPainAlert lvl elapsed ≠ none ↔ elapsed = true ∧ 60 < lvl) ∧
    (60 < lvl → lvl ≤ 70 → dispatchPainAlert lvl true = some AlertTier.low) ∧
    (70 < lvl → dispatchPainAlert lvl true = some AlertTier.high) := by
  unfold dispatchPainAlert painAlertTier
  refine ⟨?_, ?_, ?_⟩
  · constructor
    · intro h
      by_cases he : elapsed = true
      · refine ⟨he, ?_⟩
        by_contra hlt
        rw [if_neg (by simp [he]; omega)] at h
        exact h rfl
      · rw [if_neg (by simp_all)] at h
        exact absurd rfl h
    · rintro ⟨he, hl⟩
      rw [if_pos (by simp [he, hl])]
      split <;> simp <;> omega
  · intro h1 h2
    rw [if_pos (by simp; omega), if_neg (by omega), if_pos (by omega)]
  · intro h1
    rw [if_pos (by simp; omega), if_pos (by omega)]

/-- Witness for C9 amended at levels 65 and 80. -/
theorem pain_alert_dispatch_spec_witness :
    dispatchPainAlert 65 true = some AlertTier.low ∧
    dispatchPainAlert 80 true = some AlertTier.high :=
  ⟨(pain_alert_dispatch_spec 65 true).2.1 (by decide) (by decide),
   (pain_alert_dispatch_spec 80 true).2.2 (by decide)⟩

end ProstheMind


namespace ProstheMind

attribute [local semireducible] Rat.add Rat.mul Rat.sub Rat.inv Rat.ofScientific

/-- A detection cycle with a knife label and an all-zero feature vector
(the label-prior mode accepts it as metal with confidence 0.85). -/
def knifeInput : CycleInput :=
  CycleInput.detection (some ⟨0, 0, 0, 0, 0⟩) (some "knife")

/-- The reachable state after one accepted knife detection from startup:
confidence 0.85, grip 70, pain history holding one raw sample (31). -/
def postKnife : SysState := (stepCycle initState knifeInput).1

/-- C6 counterexample.  `postKnife` is reachable and has confidence 0.85;
the following no-detection cycle decays confidence to 0.8 (above the 0.1
floor) and leaves the whole pain state untouched — `update_pain_level`
is not invoked at all, so neither the pain level nor the strain decays:
the pain state is not updated on every detection cycle. -/
theorem pain_not_updated_on_decay_cycle :
    postKnife.pain.painLevel = 31 ∧
    (stepCycle postKnife CycleInput.noDetection).2 = none ∧
    (stepCycle postKnife CycleInput.noDetection).1.pain = postKnife.pain := by
  decide

/-- C6 amended.  The pain state is updated only on cycles with an
accepted classification (told is-gripping = true) and on decay cycles
whose decayed confidence crosses the floor (told is-gripping = false:
0.05 decay against the 0.1 floor without a detection, 0.03 decay against
the 0.2 floor on a rejected detection); on decay cycles still at or
above the floor the pain state is left untouched.  When told
is-gripping = false, the appended raw sample is the prior level less 2
and strain decays by 0.5 toward 0. -/
theorem pain_update_schedule :
    (∀ (s : SysState) (f : Option Features) (l : Option String) (m : Material),
        (classify_material f l).1 = some m →
        2/5 < (classify_material f l).2 →
        (stepCycle s (CycleInput.detection f l)).2 = some true) ∧
    (∀ s : SysState, 1/10 ≤ max 0 (s.confidence - 1/20) →
        (stepCycle s CycleInput.noDetection).2 = none ∧
        (stepCycle s CycleInput.noDetection).1.pain = s.pain) ∧
    (∀ s : SysState, max 0 (s.confidence - 1/20) < 1/10 →
        (stepCycle s CycleInput.noDetection).2 = some false ∧
        (stepCycle s CycleInput.noDetection).1.pain =
          update_pain_level s.pain 0 none false) ∧
    (∀ (s : SysState) (l : Option String), 1/5 ≤ max 0 (s.confidence - 3/100) →
        (stepCycle s (CycleInput.detection none l)).2 = none ∧
        (stepCycle s (CycleInput.detection none l)).1.pain = s.pain) ∧
    (∀ (s : SysState) (l : Option String), max 0 (s.confidence - 3/100) < 1/5 →
        (stepCycle s (CycleInput.detection none l)).2 = some false ∧
        (stepCycle s (CycleInput.detection none l)).1.pain =
          update_pain_level s.pain 0 none false) ∧
    (∀ ps : PainState,
        (update_pain_level ps 0 none false).painHistory =
          pushBounded 20 ps.painHistory (ps.painLevel - 2) ∧
        (update_pain_level ps 0 none false).strain =
          max 0 (ps.strain - 1/2)) := by
  refine ⟨?_, ?_, ?_, ?_, ?_, ?_⟩
  · intro s f l m hm hc
    have hstep : stepCycle s (CycleInput.detection f l) =
        match (classify_material f l).1 with
        | some m => if 2/5 < (classify_material f l).2
                    then acceptStep s l m (classify_material f l).2
                    else weakStep s l
        | none => weakStep s l := rfl
    rw [hstep, hm]
    simp only []
    rw [if_pos hc]
    rfl
  · intro s h
    show (noDetectionStep s).2 = none ∧ (noDetectionStep s).1.pain = s.pain
    unfold noDetectionStep
    simp only []
    rw [if_neg (not_lt.mpr h)]
    exact ⟨rfl, rfl⟩
  · intro s h
    show (noDetectionStep s).2 = some false ∧
         (noDetectionStep s).1.pain = update_pain_level s.pain 0 none false
    unfold noDetectionStep
    simp only []
    rw [if_pos h]
    exact ⟨rfl, rfl⟩
  · intro s l h
    show (weakStep s l).2 = none ∧ (weakStep s l).1.pain = s.pain
    unfold weakStep
    simp only []
    rw [if_neg (not_lt.mpr h)]
    exact ⟨rfl, rfl⟩
  · intro s l h
    show (weakStep s l).2 = some false ∧
         (weakStep s l).1.pain = update_pain_level s.pain 0 none false
    unfold weakStep
    simp only []
    rw [if_pos h]
    exact ⟨rfl, rfl⟩
  · intro ps
    exact ⟨rfl, rfl⟩

/-- Witness for C6 amended: an accepted knife detection invokes the pain
model with is-gripping true; a no-detection cycle at confidence 1 leaves
the pain state untouched; one at confidence 0 invokes the model with
is-gripping false; the not-gripping update decays strain by 0.5. -/
theorem pain_update_schedule_witness :
    (stepCycle initState knifeInput).2 = some true ∧
    (stepCycle { initState with confidence := 1 } CycleInput.noDetection).2 =
      none ∧
    (stepCycle initState CycleInput.noDetection).2 = some false ∧
    (update_pain_level initPainState 0 none false).strain =
      max 0 (initPainState.strain - 1/2) :=
  ⟨pain_update_schedule.1 initState (some ⟨0, 0, 0, 0, 0⟩) (some "knife")
      Material.metal (by decide) (by decide),
   (pain_update_schedule.2.1 { initState with confidence := 1 }
      (by decide)).1,
   (pain_update_schedule.2.2.1 initState (by decide)).1,
   (pain_update_schedule.2.2.2.2.2 initPainState).2⟩

end ProstheMind

namespace ProstheMind

attribute [local semireducible] Rat.add Rat.mul Rat.sub Rat.inv Rat.ofScientific

/-- C8 counterexample.  Reset after one accepted knife detection: the
reset handler leaves the pain history (one sample, 31), the contact flag
(true) and the target grip (70) at their pre-reset values, so the
post-reset state differs from the startup state. -/
theorem reset_not_initial :
    resetState postKnife ≠ initState ∧
    (resetState postKnife).pain.painHistory = [31] ∧
    initState.pain.painHistory = [] ∧
    (resetState postKnife).wasInContact = true ∧
    initState.wasInContact = false ∧
    (resetState postKnife).targetGrip = 70 ∧
    initState.targetGrip = 0 := by decide

/-- C8 amended.  The reset command restores the material and grip
histories, the current material, object and grip, the confidence, the
reported pain level and the strain accumulation to their startup values,
but leaves the pain history, the relief-mode flag, the contact flag, the
contact frame counter and the target grip unchanged; consequently the
post-reset state equals the startup state exactly when those untouched
fields were already at their startup values. -/
theorem reset_spec (s : SysState) :
    (resetState s).currentMaterial = initState.currentMaterial ∧
    (resetState s).currentObject = initState.currentObject ∧
    (resetState s).currentGrip = initState.currentGrip ∧
    (resetState s).confidence = initState.confidence ∧
    (resetState s).gripHistory = initState.gripHistory ∧
    (resetState s).materialHistory = initState.materialHistory ∧
    (resetState s).pain.painLevel = initState.pain.painLevel ∧
    (resetState s).pain.strain = initState.pain.strain ∧
    (resetState s).pain.painHistory = s.pain.painHistory ∧
    (resetState s).pain.relief = s.pain.relief ∧
    (resetState s).wasInContact = s.wasInContact ∧
    (resetState s).contactFrameCount = s.contactFrameCount ∧
    (resetState s).targetGrip = s.targetGrip ∧
    (resetState s = initState ↔
      s.pain.painHistory = [] ∧ s.pain.relief = false ∧
      s.wasInContact = false ∧ s.contactFrameCount = 0 ∧
      s.targetGrip = 0) := by
  refine ⟨rfl, rfl, rfl, rfl, rfl, rfl, rfl, rfl, rfl, rfl, rfl, rfl, rfl, ?_⟩
  constructor
  · intro h
    refine ⟨?_, ?_, ?_, ?_, ?_⟩
    · have := congrArg (fun t => t.pain.painHistory) h
      simpa [resetState, initState, initPainState] using this
    · have := congrArg (fun t => t.pain.relief) h
      simpa [resetState, initState, initPainState] using this
    · have := congrArg (fun t => t.wasInContact) h
      simpa [resetState, initState] using this
    · have := congrArg (fun t => t.contactFrameCount) h
      simpa [resetState, initState] using this
    · have := congrArg (fun t => t.targetGrip) h
      simpa [resetState, initState] using this
  · rintro ⟨h1, h2, h3, h4, h5⟩
    simp [resetState, initState, initPainState, SysState.mk.injEq,
      PainState.mk.injEq, h1, h2, h3, h4, h5]

end ProstheMind



namespace ProstheMind

attribute [local semireducible] Rat.add Rat.mul Rat.sub Rat.inv Rat.ofScientific

theorem simStrain_strain_closed (n : ℕ) :
    (simStrain n).strain = min ((9 * n : ℚ) / 20) 50 := by
  induction n with
  | zero => simp [simStrain, initPainState]
  | succ k ih =>
    have hstep : (simStrain (k + 1)).strain =
        min ((simStrain k).strain + (90 : ℚ) / 100 * (1/2)) 50 := rfl
    rw [hstep, ih]
    rcases le_or_lt ((9 * k : ℚ) / 20) 50 with h | h
    · rw [min_eq_left h]
      have harg : (9 * (k : ℚ)) / 20 + (90 : ℚ) / 100 * (1/2) =
          (9 * ((k : ℚ) + 1)) / 20 := by ring
      rw [harg]
      push_cast
      rfl
    · have hk1 : (50 : ℚ) ≤ (9 * ((k : ℚ) + 1)) / 20 := by linarith
      rw [min_eq_right (le_of_lt h)]
      rw [min_eq_right (by norm_num : (50 : ℚ) ≤ 50 + (90 : ℚ) / 100 * (1/2))]
      push_cast
      rw [min_eq_right hk1]

/-- C7 counterexample.  Feeding is-gripping = true, grip 90, metal for
exactly 30 consecutive cycles from the initial pain state leaves strain
at 13.5 — far from the 50 cap — and the reported level at 61: no cycle
among the first 30 ever reports a level above 75 and relief mode is
never entered. -/
theorem strain_scenario_30_cycles :
    (simStrain 30).strain = 27/2 ∧ (simStrain 30).strain < 50 ∧
    (simStrain 30).painLevel = 61 ∧ (simStrain 30).relief = false ∧
    ((List.range 31).filter (fun k => 75 < (simStrain k).painLevel)) = [] ∧
    ((List.range 31).filter (fun k => (simStrain k).relief)) = [] := by
  decide

/-- C7 amended.  Under the same feed continued beyond 30 cycles, strain
follows min(0.45·n, 50) — so it reaches the 50 cap from cycle 112 on —
and the reported pain level first exceeds 75 at cycle 63, at which point
relief mode is entered. -/
theorem strain_scenario_extended :
    (∀ n : ℕ, (simStrain n).strain = min ((9 * n : ℚ) / 20) 50) ∧
    (∀ n : ℕ, 112 ≤ n → (simStrain n).strain = 50) ∧
    75 < (simStrain 63).painLevel ∧ (simStrain 63).relief = true ∧
    (simStrain 62).painLevel ≤ 75 := by
  refine ⟨simStrain_strain_closed, ?_, by decide, by decide, by decide⟩
  intro n hn
  rw [simStrain_strain_closed n]
  have hnq : (112 : ℚ) ≤ (n : ℚ) := by exact_mod_cast hn
  rw [min_eq_right (by linarith)]

/-- Witness for C7 amended: the strain cap is attained at cycle 112. -/
theorem strain_scenario_extended_witness :
    (simStrain 112).strain = 50 :=
  strain_scenario_extended.2.1 112 (by decide)

end ProstheMind
